import Mathlib

/-!
Verification of the DEparrow bootstrap server's state-synchronization core
(src/deparrow/metaos-layer/bootstrap-server.py).

Python dictionaries are modelled as association lists `List (String × α)`
(insertion-ordered, unique keys in any state the server actually builds);
Python floats (credit balances, `time.time()` values) and `datetime`
timestamps are modelled as rationals `ℚ` on a single global timeline.
Each handler is translated to a pure function from the dictionaries it reads
and mutates to an outcome value (the JSON response discriminant) paired with
the updated dictionaries.
-/

/-- Dictionary key lookup: first entry whose key matches, as in a Python
dict (which holds at most one entry per key). -/
def lookupKey {α : Type} (xs : List (String × α)) (k : String) : Option α :=
  match xs with
  | [] => none
  | p :: rest => if p.1 = k then some p.2 else lookupKey rest k

/-- Dictionary assignment for a key that is already present: replaces the
value in place, keeping insertion order (Python `d[k] = v` on an existing
key). -/
def setKey {α : Type} (xs : List (String × α)) (k : String) (v : α) : List (String × α) :=
  xs.map (fun p => if p.1 = k then (k, v) else p)

/-- Dictionary assignment `d[k] = v`: overwrite when present, append when
absent. -/
def insertKey {α : Type} (xs : List (String × α)) (k : String) (v : α) : List (String × α) :=
  if (lookupKey xs k).isSome then setKey xs k v else xs ++ [(k, v)]

/-- The key list of a dictionary. -/
def keysOf {α : Type} (xs : List (String × α)) : List String :=
  xs.map (fun p => p.1)

/-- A well-formed dictionary state: no duplicate keys (always true of a
Python dict). -/
def nodupKeys {α : Type} (xs : List (String × α)) : Prop :=
  (keysOf xs).Nodup

-- ============ Configuration constants (class Config) ============

namespace Config

/-- CREDIT_EARNING_RATE = 0.1 (credits per CPU-hour). -/
def creditEarningRate : ℚ := 1 / 10

/-- CREDIT_SUBMISSION_COST = 1.0. -/
def creditSubmissionCost : ℚ := 1

/-- NODE_REGISTRATION_TTL = 300 seconds. -/
def nodeRegistrationTTL : ℚ := 300

/-- The agent staleness timeout hard-coded in `_cleanup_task` (600 s,
"longer timeout for agents - 10 minutes"). -/
def agentStaleSeconds : ℚ := 600

end Config

-- ============ Credit ledger (users dict of DEparrowBootstrapServer) ============

/-- `@dataclass User` of bootstrap-server.py. -/
structure User where
  user_id : String
  email : String
  credit_balance : ℚ
  created_at : ℚ
  last_active : ℚ
deriving DecidableEq

/-- The server's `self.users` dictionary. -/
abbrev Users := List (String × User)

/-- Sum of all account balances, the quantity the conservation invariant
speaks about. -/
def sumBalances (us : Users) : ℚ :=
  (us.map (fun p => p.2.credit_balance)).sum

/-- Outcome discriminant of `transfer_credits` (the JSON response / HTTP
status the handler produces). -/
inductive TransferOutcome where
  | invalidRequest
  | userNotFound
  | insufficientCredits (available required : ℚ)
  | transferred (amount fromBalance toBalance : ℚ)
deriving DecidableEq

/-- Whether the outcome is the success case. -/
def TransferOutcome.isTransferred : TransferOutcome → Bool
  | .transferred _ _ _ => true
  | _ => false

/-- `DEparrowBootstrapServer.transfer_credits` (lines 999-1048).
Validation: Python rejects a falsy `to_user_id`, a falsy `amount` or
`amount <= 0`; an absent/empty recipient is modelled as `toId = ""` and the
falsy-zero test on `amount` is subsumed by `amount ≤ 0`.  There is no
`fromId ≠ toId` check in the source.  `from_user` and `to_user` are the
same Python object when `fromId = toId`, so the `+=` on `to_user` reads the
balance already decremented by the `-=` on `from_user`; the model reproduces
this aliasing by re-reading the dictionary between the two writes, and reads
the reported from-balance back from the final state as the handler reads the
mutated attribute. -/
def transfer_credits (us : Users) (fromId toId : String) (amount : ℚ) :
    TransferOutcome × Users :=
  if toId = "" ∨ amount ≤ 0 then
    (.invalidRequest, us)
  else
    match lookupKey us fromId, lookupKey us toId with
    | none, _ => (.userNotFound, us)
    | some _, none => (.userNotFound, us)
    | some fu, some tu =>
      if fu.credit_balance < amount then
        (.insufficientCredits fu.credit_balance amount, us)
      else
        let fu1 := { fu with credit_balance := fu.credit_balance - amount }
        let us1 := setKey us fromId fu1
        let tuCur := (lookupKey us1 toId).getD tu
        let tu1 := { tuCur with credit_balance := tuCur.credit_balance + amount }
        let us2 := setKey us1 toId tu1
        let fuFinal := (lookupKey us2 fromId).getD fu1
        (.transferred amount fuFinal.credit_balance tu1.credit_balance, us2)

/-- `JobSubmission` / the job record stored in `self.jobs`. The free-form
`spec` payload is opaque to every claim and carried as a key-value list. -/
structure Job where
  job_id : String
  user_id : String
  spec : List (String × String)
  credit_cost : ℚ
  orchestrator : String
deriving DecidableEq

/-- The server's `self.jobs` dictionary. -/
abbrev Jobs := List (String × Job)

/-- Outcome discriminant of `submit_job`. -/
inductive SubmitOutcome where
  | userNotFound
  | insufficientCredits (required available : ℚ)
  | accepted (jobId : String) (creditDeducted remainingBalance : ℚ)
deriving DecidableEq

/-- Whether the outcome is the success case. -/
def SubmitOutcome.isAccepted : SubmitOutcome → Bool
  | .accepted _ _ _ => true
  | _ => false

/-- `DEparrowBootstrapServer.submit_job` (lines 871-924): the debit-like
operation.  `creditCost` is the caller-supplied `credit_cost` (default
`Config.CREDIT_SUBMISSION_COST`); `jobSpec`/`orch` are the opaque payload
fields; `now` is `datetime.utcnow()`. -/
def submit_job (us : Users) (jobs : Jobs) (userId jobId : String)
    (creditCost : ℚ) (jobSpec : List (String × String)) (orch : String) (now : ℚ) :
    SubmitOutcome × Users × Jobs :=
  match lookupKey us userId with
  | none => (.userNotFound, us, jobs)
  | some u =>
    if u.credit_balance < creditCost then
      (.insufficientCredits creditCost u.credit_balance, us, jobs)
    else
      let u1 := { u with credit_balance := u.credit_balance - creditCost,
                         last_active := now }
      let us1 := setKey us userId u1
      let job : Job := { job_id := jobId, user_id := userId, spec := jobSpec,
                         credit_cost := creditCost, orchestrator := orch }
      (.accepted jobId creditCost u1.credit_balance, us1, insertKey jobs jobId job)

/-- Outcome discriminant of `cancel_job`. -/
inductive CancelOutcome where
  | jobNotFound
  | notAuthorized
  | cancelled (refundAmount remainingBalance : ℚ)
deriving DecidableEq

/-- `DEparrowBootstrapServer.cancel_job` (lines 946-977): the credit-like
operation.  Refund is a flat 50% of the job's recorded cost; the balance is
only credited when the user still exists; the job record itself is not
removed. -/
def cancel_job (us : Users) (jobs : Jobs) (jobId userId : String) :
    CancelOutcome × Users :=
  match lookupKey jobs jobId with
  | none => (.jobNotFound, us)
  | some job =>
    if job.user_id = userId then
      let refund := job.credit_cost * (1 / 2)
      match lookupKey us userId with
      | some u =>
        let u1 := { u with credit_balance := u.credit_balance + refund }
        (.cancelled refund u1.credit_balance, setKey us userId u1)
      | none => (.cancelled refund 0, us)
    else
      (.notAuthorized, us)

/-- Outcome of the HTTP balance endpoint `get_credit_balance`
(lines 1050-1063): a 404 "User not found" error for an unknown account, the
current balance otherwise. -/
inductive BalanceOutcome where
  | userNotFound
  | balanceIs (credit_balance : ℚ)
deriving DecidableEq

/-- `DEparrowBootstrapServer.get_credit_balance` (lines 1050-1063). -/
def get_credit_balance (us : Users) (userId : String) : BalanceOutcome :=
  match lookupKey us userId with
  | none => .userNotFound
  | some u => .balanceIs u.credit_balance

-- ============ Rate limiter (class RateLimiter) ============

/-- `RateLimiter.check_rate_limit` (lines 375-402), for one key: takes the
key's recorded timestamp list and the current time, returns the
`(is_allowed, remaining_requests)` pair and the key's new timestamp list.
Python keeps `ts > now - window_seconds`, denies without recording when
`current_count >= max_requests`, otherwise appends `now` and returns
`max_requests - current_count - 1`. -/
def check_rate_limit (requests : List ℚ) (now : ℚ) (maxRequests : ℤ)
    (windowSeconds : ℚ) : (Bool × ℤ) × List ℚ :=
  let windowStart := now - windowSeconds
  let kept := requests.filter (fun ts => decide (windowStart < ts))
  let currentCount : ℤ := kept.length
  if maxRequests ≤ currentCount then
    ((false, 0), kept)
  else
    ((true, maxRequests - currentCount - 1), kept ++ [now])

/-- The sliding-window log exactly as the specification words it: first drop
all recorded timestamps `≤ now - windowSeconds`; if the remaining count is
`< maxRequests`, record `now` and return `(true, maxRequests - count - 1)`;
otherwise return `(false, 0)` without recording the attempt.  Stated
separately from `check_rate_limit` so the two can be compared. -/
def checkRateLimitSpecModel (requests : List ℚ) (now : ℚ) (maxRequests : ℤ)
    (windowSeconds : ℚ) : (Bool × ℤ) × List ℚ :=
  let kept := requests.filter (fun ts => decide (¬ ts ≤ now - windowSeconds))
  if (kept.length : ℤ) < maxRequests then
    ((true, maxRequests - (kept.length : ℤ) - 1), kept ++ [now])
  else
    ((false, 0), kept)

/-- Run a sequence of checks for one key at the given call times, collecting
the `(allowed, remaining)` decisions and threading the timestamp list. -/
def runRateLimiter (times : List ℚ) (maxRequests : ℤ) (windowSeconds : ℚ) :
    List (Bool × ℤ) × List ℚ :=
  times.foldl
    (fun acc t =>
      let r := check_rate_limit acc.2 t maxRequests windowSeconds
      (acc.1 ++ [r.1], r.2))
    ([], [])

-- ============ Nodes, agents, liveness (server dicts + _cleanup_task) ============

/-- `class NodeStatus(str, Enum)`. -/
inductive NodeStatus where
  | online
  | offline
  | maintenance
  | suspended
deriving DecidableEq

/-- `class NodeArchitecture(str, Enum)`. -/
inductive NodeArchitecture where
  | x86_64
  | arm64
deriving DecidableEq

/-- `@dataclass Node` of bootstrap-server.py: the liveness record kept per
compute node.  `resources`/`labels` are free-form string maps; `location` is
the lat/lng pair. -/
structure Node where
  node_id : String
  public_key : String
  arch : NodeArchitecture
  resources : List (String × String)
  status : NodeStatus
  last_seen : ℚ
  credits_earned : ℚ
  labels : List (String × String)
  cpu_cores : ℕ
  cpu_usage_hours : ℚ
  gpu_count : ℕ
  gpu_model : String
  gpu_usage_hours : ℚ
  memory_gb : ℚ
  live_gflops : ℚ
  location : ℚ × ℚ
deriving DecidableEq

/-- The server's `self.nodes` dictionary. -/
abbrev Nodes := List (String × Node)

/-- `NodeRegistration` request model. -/
structure NodeRegistration where
  node_id : String
  public_key : String
  resources : List (String × String)
  arch : NodeArchitecture
  labels : List (String × String)
deriving DecidableEq

/-- `DEparrowBootstrapServer.register_node` (lines 683-747), the registry
mutation only (JWT/response marshaling is glue).  For an already-known
`node_id` the handler touches `last_seen` and `status` and nothing else; a
fresh `node_id` gets a new record with zeroed contribution counters. -/
def register_node (nodes : Nodes) (reg : NodeRegistration) (now : ℚ) : Nodes :=
  match lookupKey nodes reg.node_id with
  | some n =>
    setKey nodes reg.node_id { n with last_seen := now, status := .online }
  | none =>
    nodes ++ [(reg.node_id,
      { node_id := reg.node_id, public_key := reg.public_key, arch := reg.arch,
        resources := reg.resources, status := .online, last_seen := now,
        credits_earned := 0, labels := reg.labels, cpu_cores := 0,
        cpu_usage_hours := 0, gpu_count := 0, gpu_model := "",
        gpu_usage_hours := 0, memory_gb := 0, live_gflops := 0,
        location := (0, 0) })]

/-- Outcome discriminant of `node_heartbeat`. -/
inductive NodeHeartbeatOutcome where
  | nodeNotFound
  | ok (last_seen credits_earned : ℚ)
deriving DecidableEq

/-- `DEparrowBootstrapServer.node_heartbeat` (lines 779-797): refreshes
`last_seen` and accrues `CREDIT_EARNING_RATE * 0.1` credits.  The handler
never writes `status`. -/
def node_heartbeat (nodes : Nodes) (nodeId : String) (now : ℚ) :
    NodeHeartbeatOutcome × Nodes :=
  match lookupKey nodes nodeId with
  | none => (.nodeNotFound, nodes)
  | some n =>
    let n1 := { n with last_seen := now,
                       credits_earned := n.credits_earned + Config.creditEarningRate * (1 / 10) }
    (.ok n1.last_seen n1.credits_earned, setKey nodes nodeId n1)

/-- `class AgentStatus(str, Enum)`. -/
inductive AgentStatus where
  | initializing
  | idle
  | working
  | error
  | offline
deriving DecidableEq

/-- `@dataclass Agent`: the liveness record kept per PicoClaw agent.  The
`config`/`metadata` payloads are opaque to every claim and omitted. -/
structure Agent where
  agent_id : String
  name : String
  node_id : String
  status : AgentStatus
  tools : List String
  last_heartbeat : ℚ
  created_at : ℚ
  credits_earned : ℚ
  credits_spent : ℚ
  jobs_completed : ℕ
  error_count : ℕ
deriving DecidableEq

/-- The server's `self.agents` dictionary. -/
abbrev Agents := List (String × Agent)

/-- Outcome discriminant of `agent_heartbeat`. -/
inductive AgentHeartbeatOutcome where
  | agentNotFound
  | ok
deriving DecidableEq

/-- `DEparrowBootstrapServer.agent_heartbeat` (lines 1467-1495): refreshes
`last_heartbeat`; `status`, `jobs_completed` and `credits_earned` change
only when the optional request payload carries them.  A heartbeat with an
empty body (`statusUpd = none` etc.) changes no status. -/
def agent_heartbeat (agents : Agents) (agentId : String) (now : ℚ)
    (statusUpd : Option AgentStatus) (jobsUpd : Option ℕ) (creditsUpd : Option ℚ) :
    AgentHeartbeatOutcome × Agents :=
  match lookupKey agents agentId with
  | none => (.agentNotFound, agents)
  | some a =>
    let a1 := { a with last_heartbeat := now,
                       status := statusUpd.getD a.status,
                       jobs_completed := jobsUpd.getD a.jobs_completed,
                       credits_earned := creditsUpd.getD a.credits_earned }
    (.ok, setKey agents agentId a1)

/-- `DEparrowBootstrapServer._tool_credit_balance` (lines 1771-1788): the
tool-layer balance query.  Agents answer `credits_earned - credits_spent`,
users answer `credit_balance`, an unknown id answers `0.0`; the call always
reports `status: success`. -/
def tool_credit_balance (agents : Agents) (us : Users) (agentId : String) : ℚ :=
  match lookupKey agents agentId with
  | some a => a.credits_earned - a.credits_spent
  | none =>
    match lookupKey us agentId with
    | some u => u.credit_balance
    | none => 0

/-- A broadcast event emitted by the cleanup sweep.  The node branch of
`_cleanup_task` emits no event at all, so the only constructor is the
agents-channel `agent_offline` message. -/
inductive BroadcastEvent where
  | agentOffline (agent_id : String) (timestamp : ℚ)
deriving DecidableEq

/-- Whether a node record is stale at time `now`
(`node.last_seen < now - Config.NODE_REGISTRATION_TTL`). -/
def nodeStale (now : ℚ) (n : Node) : Bool :=
  decide (n.last_seen < now - Config.nodeRegistrationTTL)

/-- Whether an agent record is stale at time `now`
(`agent.last_heartbeat < now - 600`). -/
def agentStale (now : ℚ) (a : Agent) : Bool :=
  decide (a.last_heartbeat < now - Config.agentStaleSeconds)

/-- One iteration of `DEparrowBootstrapServer._cleanup_task`
(lines 2105-2135): every stale node is set `OFFLINE` (no broadcast for
nodes); every stale agent is set `OFFLINE` and an `agent_offline` event is
broadcast for it.  Neither branch tests the record's current status, so the
sweep re-marks and (for agents) re-broadcasts records that are already
offline. -/
def cleanup_sweep (nodes : Nodes) (agents : Agents) (now : ℚ) :
    Nodes × Agents × List BroadcastEvent :=
  let nodes1 := nodes.map (fun p =>
    if nodeStale now p.2 then (p.1, { p.2 with status := NodeStatus.offline }) else p)
  let agents1 := agents.map (fun p =>
    if agentStale now p.2 then (p.1, { p.2 with status := AgentStatus.offline }) else p)
  let events := (agents.filter (fun p => agentStale now p.2)).map
    (fun p => BroadcastEvent.agentOffline p.1 now)
  (nodes1, agents1, events)

-- ============ WebSocket manager (class WebSocketManager) ============

/-- `class WebSocketManager`: `connections` keeps the client ids holding a
live socket (the socket object itself is irrelevant to the claims and
represented by membership); `subscriptions` maps client id to its channel
list; `agent_connections` maps agent id to the client ids routed to it. -/
structure WebSocketManager where
  connections : List String
  subscriptions : List (String × List String)
  agent_connections : List (String × List String)
deriving DecidableEq

namespace WebSocketManager

/-- The empty manager (`WebSocketManager.__init__`). -/
def empty : WebSocketManager :=
  { connections := [], subscriptions := [], agent_connections := [] }

/-- Append an element to a list unless already present (Python `set.add`). -/
def addIfAbsent (xs : List String) (x : String) : List String :=
  if x ∈ xs then xs else xs ++ [x]

/-- `WebSocketManager.connect` (lines 283-287): `connections[client_id] = ws`. -/
def connect (m : WebSocketManager) (clientId : String) : WebSocketManager :=
  { m with connections := addIfAbsent m.connections clientId }

/-- `WebSocketManager.disconnect` (lines 289-300): drops the connection
entry, drops the client's whole subscription entry, and discards the client
from every agent's routed set (the agent keys themselves are kept, as in the
source). -/
def disconnect (m : WebSocketManager) (clientId : String) : WebSocketManager :=
  { connections := m.connections.filter (fun c => decide (c ≠ clientId)),
    subscriptions := m.subscriptions.filter (fun p => decide (p.1 ≠ clientId)),
    agent_connections := m.agent_connections.map
      (fun p => (p.1, p.2.filter (fun c => decide (c ≠ clientId)))) }

/-- `WebSocketManager.subscribe` (lines 302-305):
`subscriptions[client_id].add(channel)` on a defaultdict. -/
def subscribe (m : WebSocketManager) (clientId channel : String) : WebSocketManager :=
  { m with subscriptions :=
      match lookupKey m.subscriptions clientId with
      | some _ => m.subscriptions.map
          (fun p => if p.1 = clientId then (p.1, addIfAbsent p.2 channel) else p)
      | none => m.subscriptions ++ [(clientId, [channel])] }

/-- `WebSocketManager.register_agent_ws` (lines 312-315):
`agent_connections[agent_id].add(client_id)` on a defaultdict. -/
def register_agent_ws (m : WebSocketManager) (agentId clientId : String) : WebSocketManager :=
  { m with agent_connections :=
      match lookupKey m.agent_connections agentId with
      | some _ => m.agent_connections.map
          (fun p => if p.1 = agentId then (p.1, addIfAbsent p.2 clientId) else p)
      | none => m.agent_connections ++ [(agentId, [clientId])] }

/-- The clients a `broadcast` on `channel` will attempt to send to: the
subscription entries whose channel set contains `channel` and whose client
still holds a connection, in iteration order. -/
def recipientsOf (m : WebSocketManager) (channel : String) : List String :=
  (m.subscriptions.filter
    (fun p => decide (channel ∈ p.2 ∧ p.1 ∈ m.connections))).map (fun p => p.1)

/-- `WebSocketManager.broadcast` (lines 317-332).  `sendFails` says which
connections' `send_str` raises (the network is outside the model).  Every
exception is caught: the failed client is collected and disconnected after
the delivery loop, the loop itself continues, and the method returns
normally — the result type has no error case, mirroring that the caller
never sees a failure.  Returns the new manager state and the client ids
whose send succeeded. -/
def broadcast (m : WebSocketManager) (channel : String) (sendFails : String → Bool) :
    WebSocketManager × List String :=
  let recipients := recipientsOf m channel
  let delivered := recipients.filter (fun c => !sendFails c)
  let disconnected := recipients.filter (fun c => sendFails c)
  (disconnected.foldl (fun s c => disconnect s c) m, delivered)

/-- `WebSocketManager.send_to_agent` (lines 334-348).  The guard is key
membership in `agent_connections` (`if agent_id not in self.agent_connections:
return False`); when the key is present the method attempts a send to each
routed client that still has a connection, logs failures without
disconnecting anybody, and returns `True` — even when the routed set is
empty.  Returns the decision plus the client ids whose send succeeded. -/
def send_to_agent (m : WebSocketManager) (agentId : String) (sendFails : String → Bool) :
    Bool × List String :=
  match lookupKey m.agent_connections agentId with
  | none => (false, [])
  | some clients =>
    (true, (clients.filter (fun c => decide (c ∈ m.connections))).filter
      (fun c => !sendFails c))

end WebSocketManager

/-- A client id fully removed from a manager: no connection entry, no
subscription entry, not routed for any agent.  This is the post-state
`WebSocketManager.disconnect` establishes for the disconnected client. -/
def WebSocketManager.removedEverywhere (m : WebSocketManager) (clientId : String) : Prop :=
  clientId ∉ m.connections
  ∧ (∀ p ∈ m.subscriptions, p.1 ≠ clientId)
  ∧ (∀ p ∈ m.agent_connections, clientId ∉ p.2)

-- ============ Concrete sample states for witnesses and counterexamples ============

/-- Sample account id. -/
def aliceId : String := "alice"

/-- Sample account id. -/
def bobId : String := "bob"

/-- An id never registered anywhere. -/
def ghostId : String := "ghost"

/-- Sample user record with balance 100. -/
def aliceUser : User :=
  { user_id := aliceId, email := "alice@example.com", credit_balance := 100,
    created_at := 0, last_active := 0 }

/-- Sample user record with balance 0. -/
def bobUser : User :=
  { user_id := bobId, email := "bob@example.com", credit_balance := 0,
    created_at := 0, last_active := 0 }

/-- The two-account ledger `A=100, B=0` of the spec's concrete scenario. -/
def usersSample : Users := [(aliceId, aliceUser), (bobId, bobUser)]

/-- A one-account ledger used for the self-transfer counterexample. -/
def usersSelf : Users := [(aliceId, aliceUser)]

/-- Sample job id. -/
def jobRId : String := "job-r"

/-- A recorded job of alice's costing 10, so a cancellation refunds 5. -/
def jobsSample : Jobs :=
  [(jobRId, { job_id := jobRId, user_id := aliceId, spec := [], credit_cost := 10,
              orchestrator := "orch-1" })]

/-- Sample node id. -/
def nodeNId : String := "node-n"

/-- A node record currently OFFLINE with `last_seen = 0` and some accumulated
contribution state. -/
def nodeNOffline : Node :=
  { node_id := nodeNId, public_key := "pk-n", arch := .x86_64,
    resources := [("cpu", "8")], status := .offline, last_seen := 0,
    credits_earned := 7, labels := [("zone", "eu")], cpu_cores := 8,
    cpu_usage_hours := 12, gpu_count := 1, gpu_model := "a100",
    gpu_usage_hours := 3, memory_gb := 64, live_gflops := 5,
    location := (1, 2) }

/-- A nodes dictionary holding the single offline node. -/
def nodesOffline : Nodes := [(nodeNId, nodeNOffline)]

/-- A re-registration request for `nodeNId` carrying different resources and
key material than the stored record. -/
def regSample : NodeRegistration :=
  { node_id := nodeNId, public_key := "pk-other", arch := .arm64,
    resources := [("cpu", "99")], labels := [("zone", "us")] }

/-- Sample agent id. -/
def agentAId : String := "agent-a"

/-- An agent record last heard from at time 0, currently idle. -/
def agentAIdle : Agent :=
  { agent_id := agentAId, name := "A", node_id := nodeNId, status := .idle,
    tools := [], last_heartbeat := 0, created_at := 0, credits_earned := 9,
    credits_spent := 4, jobs_completed := 2, error_count := 0 }

/-- An agents dictionary holding the single idle agent. -/
def agentsSample : Agents := [(agentAId, agentAIdle)]

/-- Sample connection ids and channel. -/
def c1Id : String := "c1"

/-- Second sample connection id. -/
def c2Id : String := "c2"

/-- Sample channel name. -/
def jobsChannel : String := "jobs"

/-- A manager with two connected clients both subscribed to `jobsChannel`,
and `c2Id` routed to `agentAId`. -/
def wsSample : WebSocketManager :=
  ((((WebSocketManager.empty.connect c1Id).connect c2Id).subscribe c1Id
      jobsChannel).subscribe c2Id jobsChannel).register_agent_ws agentAId c2Id

/-- A manager where `c1Id` connected, was routed to `agentAId`, then
disconnected: the agent key survives with an empty routed set. -/
def wsGone : WebSocketManager :=
  ((WebSocketManager.empty.connect c1Id).register_agent_ws agentAId c1Id).disconnect c1Id

-- ============ General dictionary lemmas ============

theorem lookupKey_mem {α : Type} {xs : List (String × α)} {k : String} {v : α}
    (h : lookupKey xs k = some v) : (k, v) ∈ xs := by
  induction xs with
  | nil => simp [lookupKey] at h
  | cons p rest ih =>
    rw [lookupKey] at h
    by_cases hp : p.1 = k
    · rw [if_pos hp] at h
      have hv : v = p.2 := by
        exact (Option.some.injEq _ _).mp h.symm
      have hkv : (k, v) = p := by rw [hv, ← hp]
      rw [hkv]
      exact List.mem_cons_self p rest
    · rw [if_neg hp] at h
      exact List.mem_cons_of_mem p (ih h)

theorem lookupKey_eq_none_iff {α : Type} (xs : List (String × α)) (k : String) :
    lookupKey xs k = none ↔ k ∉ keysOf xs := by
  induction xs with
  | nil => simp [lookupKey, keysOf]
  | cons p rest ih =>
    rw [lookupKey, keysOf]
    by_cases hp : p.1 = k
    · simp [hp]
    · simp only [if_neg hp, List.map_cons, List.mem_cons]
      rw [keysOf] at ih
      constructor
      · intro h hk
        rcases hk with hk | hk
        · exact hp hk.symm
        · exact (ih.mp h) hk
      · intro h
        exact ih.mpr (fun hk => h (Or.inr hk))

theorem mem_setKey {α : Type} {xs : List (String × α)} {k : String} {v : α}
    {p : String × α} (h : p ∈ setKey xs k v) : p = (k, v) ∨ p ∈ xs := by
  rw [setKey] at h
  rcases List.mem_map.mp h with ⟨q, hq, hpq⟩
  by_cases hqk : q.1 = k
  · rw [if_pos hqk] at hpq
    left
    exact hpq.symm
  · rw [if_neg hqk] at hpq
    right
    rw [← hpq]
    exact hq

theorem keysOf_setKey {α : Type} (xs : List (String × α)) (k : String) (v : α) :
    keysOf (setKey xs k v) = keysOf xs := by
  induction xs with
  | nil => rfl
  | cons p rest ih =>
    simp only [setKey, keysOf, List.map_cons] at ih ⊢
    by_cases hp : p.1 = k
    · rw [if_pos hp, ih, hp]
    · rw [if_neg hp, ih]

theorem setKey_of_not_mem {α : Type} {xs : List (String × α)} {k : String} (v : α)
    (h : k ∉ keysOf xs) : setKey xs k v = xs := by
  induction xs with
  | nil => rfl
  | cons p rest ih =>
    rw [keysOf, List.map_cons, List.mem_cons] at h
    push_neg at h
    rw [setKey, List.map_cons, if_neg (fun hk => h.1 hk.symm)]
    rw [keysOf] at ih
    rw [List.cons.injEq]
    exact ⟨rfl, ih h.2⟩

theorem lookupKey_setKey_self {α : Type} {xs : List (String × α)} {k : String}
    {w : α} (v : α) (h : lookupKey xs k = some w) :
    lookupKey (setKey xs k v) k = some v := by
  induction xs with
  | nil => simp [lookupKey] at h
  | cons p rest ih =>
    rw [lookupKey] at h
    rw [setKey, List.map_cons]
    by_cases hp : p.1 = k
    · rw [if_pos hp, lookupKey, if_pos rfl]
    · rw [if_neg hp, lookupKey, if_neg hp]
      rw [if_neg hp] at h
      exact ih h

theorem lookupKey_setKey_ne {α : Type} (xs : List (String × α)) {k k' : String}
    (v : α) (h : k' ≠ k) :
    lookupKey (setKey xs k v) k' = lookupKey xs k' := by
  induction xs with
  | nil => rfl
  | cons p rest ih =>
    rw [setKey, List.map_cons]
    by_cases hp : p.1 = k
    · rw [if_pos hp, lookupKey, lookupKey]
      rw [if_neg (show ¬ ((k, v).1 = k') from fun hk => h hk.symm)]
      rw [if_neg (show ¬ (p.1 = k') from fun hk => h (hk ▸ hp))]
      exact ih
    · rw [if_neg hp, lookupKey, lookupKey]
      by_cases hp' : p.1 = k'
      · rw [if_pos hp', if_pos hp']
      · rw [if_neg hp', if_neg hp']
        exact ih

theorem setKey_setKey_same {α : Type} (xs : List (String × α)) (k : String) (a b : α) :
    setKey (setKey xs k a) k b = setKey xs k b := by
  rw [setKey, setKey, setKey, List.map_map]
  apply List.map_congr_left
  intro p _
  by_cases hp : p.1 = k
  · simp [hp]
  · simp [hp]

theorem setKey_lookup_self_eq {α : Type} {xs : List (String × α)} {k : String} {v : α}
    (hnd : nodupKeys xs) (h : lookupKey xs k = some v) : setKey xs k v = xs := by
  induction xs with
  | nil => rfl
  | cons p rest ih =>
    rw [nodupKeys, keysOf, List.map_cons, List.nodup_cons] at hnd
    rw [lookupKey] at h
    rw [setKey, List.map_cons]
    by_cases hp : p.1 = k
    · rw [if_pos hp] at *
      have hv : v = p.2 := (Option.some.injEq _ _).mp h.symm
      rw [List.cons.injEq]
      refine ⟨by rw [hv, ← hp], ?_⟩
      have : k ∉ keysOf rest := by
        rw [← hp]
        exact fun hm => hnd.1 hm
      rw [← setKey]
      exact setKey_of_not_mem v this
    · rw [if_neg hp] at *
      rw [List.cons.injEq, ← setKey]
      exact ⟨rfl, ih hnd.2 h⟩

theorem sumBalances_setKey {us : Users} {k : String} {u0 : User} (u : User)
    (hnd : nodupKeys us) (h : lookupKey us k = some u0) :
    sumBalances (setKey us k u) =
      sumBalances us - u0.credit_balance + u.credit_balance := by
  induction us with
  | nil => simp [lookupKey] at h
  | cons p rest ih =>
    rw [nodupKeys, keysOf, List.map_cons, List.nodup_cons] at hnd
    rw [lookupKey] at h
    rw [setKey, List.map_cons, sumBalances, List.map_cons, List.sum_cons]
    by_cases hp : p.1 = k
    · rw [if_pos hp] at *
      have hv : u0 = p.2 := (Option.some.injEq _ _).mp h.symm
      have hrest : k ∉ keysOf rest := by
        rw [← hp]
        exact fun hm => hnd.1 hm
      rw [← setKey, setKey_of_not_mem u hrest]
      rw [sumBalances, List.map_cons, List.sum_cons, hv]
      ring
    · rw [if_neg hp] at *
      rw [← setKey]
      have := ih hnd.2 h
      rw [sumBalances] at this ⊢
      rw [this, sumBalances, List.map_cons, List.sum_cons]
      ring

theorem nodupKeys_setKey {α : Type} {xs : List (String × α)} (k : String) (v : α)
    (h : nodupKeys xs) : nodupKeys (setKey xs k v) := by
  rw [nodupKeys, keysOf_setKey]
  exact h

-- ============ Claim theorems ============

/-- Claim C3: the rate-limit check implements the sliding-window log exactly
as specified (drop timestamps `≤ now - window`, admit and record when the
remaining count is below the maximum with `remaining = max - count - 1`,
otherwise deny with `(false, 0)` and record nothing), and the concrete
`max=3, window=60s` scenario admits calls 1-3 with remaining 2,1,0, denies
call 4 in the same window with remaining 0, and admits again after the
window elapses. -/
theorem C3_rate_limiter_sliding_window :
    (∀ (requests : List ℚ) (now : ℚ) (maxRequests : ℤ) (windowSeconds : ℚ),
      check_rate_limit requests now maxRequests windowSeconds =
        checkRateLimitSpecModel requests now maxRequests windowSeconds)
    ∧ (runRateLimiter [0, 0, 0, 0, 61] 3 60).1 =
        [(true, 2), (true, 1), (true, 0), (false, 0), (true, 2)] := by
  constructor
  · intro requests now maxRequests windowSeconds
    rw [check_rate_limit, checkRateLimitSpecModel]
    have hf : (fun ts : ℚ => decide (¬ ts ≤ now - windowSeconds)) =
        (fun ts : ℚ => decide (now - windowSeconds < ts)) := by
      funext ts
      exact decide_eq_decide.mpr not_le
    rw [hf]
    rcases lt_or_le
        ((requests.filter (fun ts => decide (now - windowSeconds < ts))).length : ℤ)
        maxRequests with h | h
    · rw [if_neg (not_le.mpr h), if_pos h]
    · rw [if_pos h, if_neg (not_lt.mpr h)]
  · norm_num [runRateLimiter, check_rate_limit, List.filter]

/-- Claim C1: a successful `transfer_credits` leaves the sum of all account
balances unchanged; the credit-like operation (`cancel_job`'s refund)
increases the sum by exactly the credited amount, and the debit-like
operation (`submit_job`'s charge) decreases it by exactly the debited
amount. -/
theorem C1_conservation :
    (∀ (us : Users) (fromId toId : String) (amount : ℚ),
      nodupKeys us →
      (transfer_credits us fromId toId amount).1.isTransferred = true →
      sumBalances (transfer_credits us fromId toId amount).2 = sumBalances us)
    ∧ (∀ (us : Users) (jobs : Jobs) (userId jobId : String) (creditCost : ℚ)
        (jobSpec : List (String × String)) (orch : String) (now : ℚ),
      nodupKeys us →
      (submit_job us jobs userId jobId creditCost jobSpec orch now).1.isAccepted = true →
      sumBalances (submit_job us jobs userId jobId creditCost jobSpec orch now).2.1 =
        sumBalances us - creditCost)
    ∧ (∀ (us : Users) (jobs : Jobs) (jobId userId : String) (refund rem : ℚ),
      nodupKeys us →
      (cancel_job us jobs jobId userId).1 = .cancelled refund rem →
      userId ∈ keysOf us →
      sumBalances (cancel_job us jobs jobId userId).2 = sumBalances us + refund) := by
  refine ⟨?_, ?_, ?_⟩
  · intro us fromId toId amount hnd hsucc
    by_cases hval : toId = "" ∨ amount ≤ 0
    · exfalso
      simp [transfer_credits, hval, TransferOutcome.isTransferred] at hsucc
    · rcases hfrom : lookupKey us fromId with _ | fu
      · exfalso
        simp [transfer_credits, hval, hfrom, TransferOutcome.isTransferred] at hsucc
      · rcases hto : lookupKey us toId with _ | tu
        · exfalso
          simp [transfer_credits, hval, hfrom, hto, TransferOutcome.isTransferred] at hsucc
        · by_cases hbal : fu.credit_balance < amount
          · exfalso
            simp [transfer_credits, hval, hfrom, hto, hbal,
              TransferOutcome.isTransferred] at hsucc
          · by_cases hft : toId = fromId
            · subst hft
              have hfu : fu = tu := by
                rw [hfrom] at hto
                exact (Option.some.injEq _ _).mp hto
              subst hfu
              have hst : (transfer_credits us toId toId amount).2 =
                  setKey us toId
                    { fu with credit_balance := fu.credit_balance - amount + amount } := by
                simp only [transfer_credits, if_neg hval, hfrom]
                rw [lookupKey_setKey_self _ hfrom]
                simp only [if_neg hbal, Option.getD_some]
                rw [setKey_setKey_same]
              rw [hst, sumBalances_setKey _ hnd hfrom]
              ring
            · have hto1 : lookupKey (setKey us fromId
                  { fu with credit_balance := fu.credit_balance - amount }) toId =
                    some tu := by
                rw [lookupKey_setKey_ne _ _ hft, hto]
              have hst : (transfer_credits us fromId toId amount).2 =
                  setKey (setKey us fromId
                      { fu with credit_balance := fu.credit_balance - amount }) toId
                    { tu with credit_balance := tu.credit_balance + amount } := by
                simp only [transfer_credits, if_neg hval, hfrom, hto]
                rw [hto1]
                simp only [if_neg hbal, Option.getD_some]
              rw [hst, sumBalances_setKey _ (nodupKeys_setKey _ _ hnd) hto1,
                sumBalances_setKey _ hnd hfrom]
              ring
  · intro us jobs userId jobId creditCost jobSpec orch now hnd hsucc
    rcases hu : lookupKey us userId with _ | u
    · exfalso
      simp [submit_job, hu, SubmitOutcome.isAccepted] at hsucc
    · by_cases hbal : u.credit_balance < creditCost
      · exfalso
        simp [submit_job, hu, hbal, SubmitOutcome.isAccepted] at hsucc
      · have hst : (submit_job us jobs userId jobId creditCost jobSpec orch now).2.1 =
            setKey us userId
              { u with credit_balance := u.credit_balance - creditCost,
                       last_active := now } := by
          simp only [submit_job, hu, if_neg hbal]
        rw [hst, sumBalances_setKey _ hnd hu]
        ring
  · intro us jobs jobId userId refund rem hnd hres hmem
    rcases hu : lookupKey us userId with _ | u
    · exfalso
      exact ((lookupKey_eq_none_iff us userId).mp hu) hmem
    · rcases hj : lookupKey jobs jobId with _ | job
      · exfalso
        simp [cancel_job, hj] at hres
      · by_cases howner : job.user_id = userId
        · have hrefund : job.credit_cost * (1 / 2) = refund := by
            have : (cancel_job us jobs jobId userId).1 =
                .cancelled (job.credit_cost * (1 / 2))
                  (u.credit_balance + job.credit_cost * (1 / 2)) := by
              simp only [cancel_job, hj, if_pos howner, hu]
            rw [this] at hres
            exact (CancelOutcome.cancelled.injEq _ _ _ _).mp hres |>.1
          have hst : (cancel_job us jobs jobId userId).2 =
              setKey us userId
                { u with credit_balance := u.credit_balance + job.credit_cost * (1 / 2) } := by
            simp only [cancel_job, hj, if_pos howner, hu]
          rw [hst, sumBalances_setKey _ hnd hu, hrefund]
          ring
        · exfalso
          simp [cancel_job, hj, howner] at hres

/-- Witness for C1: the spec's concrete scenario `transfer(A,B,30)` on
`A=100, B=0` conserves the total balance. -/
theorem C1_conservation_witness :
    sumBalances (transfer_credits usersSample aliceId bobId 30).2 =
      sumBalances usersSample :=
  C1_conservation.1 usersSample aliceId bobId 30 (by unfold nodupKeys; decide) (by decide)


/-- Claim C2: `submit_job` and `transfer_credits` preserve non-negativity of
every balance, and a debit whose amount exceeds the current balance fails
with the insufficient-balance outcome and leaves every balance (and the job
table) unchanged. -/
theorem C2_nonnegativity :
    (∀ (us : Users) (jobs : Jobs) (userId jobId : String) (creditCost : ℚ)
        (jobSpec : List (String × String)) (orch : String) (now : ℚ),
      (∀ p ∈ us, 0 ≤ (p : String × User).2.credit_balance) →
      ∀ p ∈ (submit_job us jobs userId jobId creditCost jobSpec orch now).2.1,
        0 ≤ (p : String × User).2.credit_balance)
    ∧ (∀ (us : Users) (fromId toId : String) (amount : ℚ),
      (∀ p ∈ us, 0 ≤ (p : String × User).2.credit_balance) →
      ∀ p ∈ (transfer_credits us fromId toId amount).2,
        0 ≤ (p : String × User).2.credit_balance)
    ∧ (∀ (us : Users) (jobs : Jobs) (userId jobId : String) (creditCost : ℚ)
        (jobSpec : List (String × String)) (orch : String) (now : ℚ) (u : User),
      lookupKey us userId = some u → u.credit_balance < creditCost →
      submit_job us jobs userId jobId creditCost jobSpec orch now =
        (.insufficientCredits creditCost u.credit_balance, us, jobs))
    ∧ (∀ (us : Users) (fromId toId : String) (amount : ℚ) (fu tu : User),
      ¬(toId = "" ∨ amount ≤ 0) →
      lookupKey us fromId = some fu → lookupKey us toId = some tu →
      fu.credit_balance < amount →
      transfer_credits us fromId toId amount =
        (.insufficientCredits fu.credit_balance amount, us)) := by
  refine ⟨?_, ?_, ?_, ?_⟩
  · intro us jobs userId jobId creditCost jobSpec orch now hpos p hp
    rcases hu : lookupKey us userId with _ | u
    · simp only [submit_job, hu] at hp
      exact hpos p hp
    · by_cases hbal : u.credit_balance < creditCost
      · simp only [submit_job, hu, if_pos hbal] at hp
        exact hpos p hp
      · simp only [submit_job, hu, if_neg hbal] at hp
        rcases mem_setKey hp with hpe | hpm
        · rw [hpe]
          have := hpos (userId, u) (lookupKey_mem hu)
          simp only at this ⊢
          linarith [not_lt.mp hbal]
        · exact hpos p hpm
  · intro us fromId toId amount hpos p hp
    by_cases hval : toId = "" ∨ amount ≤ 0
    · rw [transfer_credits, if_pos hval] at hp
      exact hpos p hp
    · have hamt : 0 < amount := by
        push_neg at hval
        exact hval.2
      rcases hfrom : lookupKey us fromId with _ | fu
      · simp only [transfer_credits, if_neg hval, hfrom] at hp
        exact hpos p hp
      · rcases hto : lookupKey us toId with _ | tu
        · simp only [transfer_credits, if_neg hval, hfrom, hto] at hp
          exact hpos p hp
        · by_cases hbal : fu.credit_balance < amount
          · simp only [transfer_credits, if_neg hval, hfrom, hto, if_pos hbal] at hp
            exact hpos p hp
          · simp only [transfer_credits, if_neg hval, hfrom, hto, if_neg hbal] at hp
            have hfu1 : (0:ℚ) ≤ fu.credit_balance - amount := by
              linarith [not_lt.mp hbal]
            have hpos1 : ∀ q ∈ setKey us fromId
                { fu with credit_balance := fu.credit_balance - amount },
                0 ≤ (q : String × User).2.credit_balance := by
              intro q hq
              rcases mem_setKey hq with hqe | hqm
              · rw [hqe]
                exact hfu1
              · exact hpos q hqm
            have hcur : 0 ≤ ((lookupKey (setKey us fromId
                { fu with credit_balance := fu.credit_balance - amount }) toId).getD
                  tu).credit_balance := by
              rcases hlk : lookupKey (setKey us fromId
                  { fu with credit_balance := fu.credit_balance - amount }) toId with _ | w
              · rw [Option.getD_none]
                exact hpos (toId, tu) (lookupKey_mem hto)
              · rw [Option.getD_some]
                exact hpos1 (toId, w) (lookupKey_mem hlk)
            rcases mem_setKey hp with hpe | hpm
            · rw [hpe]
              dsimp only
              linarith
            · exact hpos1 p hpm
  · intro us jobs userId jobId creditCost jobSpec orch now u hu hbal
    simp only [submit_job, hu, if_pos hbal]
  · intro us fromId toId amount fu tu hval hfrom hto hbal
    simp only [transfer_credits, if_neg hval, hfrom, hto, if_pos hbal]

/-- Witness for C2: on `A=100, B=0` the oversized `transfer(A,B,1000)`
fails with the insufficient-balance outcome and changes nothing, and every
balance stays non-negative after the valid `transfer(A,B,30)`. -/
theorem C2_nonnegativity_witness :
    (transfer_credits usersSample aliceId bobId 1000 =
      (.insufficientCredits 100 1000, usersSample))
    ∧ ∀ p ∈ (transfer_credits usersSample aliceId bobId 30).2,
        0 ≤ (p : String × User).2.credit_balance := by
  constructor
  · have h := C2_nonnegativity.2.2.2 usersSample aliceId bobId 1000 aliceUser bobUser
      (by decide) (by decide) (by decide) (by decide)
    rw [h]
    rfl
  · exact C2_nonnegativity.2.1 usersSample aliceId bobId 30
      (by
        intro p hp
        simp only [usersSample, List.mem_cons, List.not_mem_nil, or_false] at hp
        rcases hp with hp | hp
        · rw [hp]
          norm_num [aliceUser]
        · rw [hp]
          norm_num [bobUser])

/-- Counterexample to claim C7: a transfer with `fromId = toId` is not
rejected.  On the one-account ledger `alice = 100`, the self-transfer of 30
succeeds with the `transferred` outcome (reporting balance 100 on both
sides) and leaves the ledger exactly as it was. -/
theorem C7_counterexample :
    (transfer_credits usersSelf aliceId aliceId 30).1 =
      TransferOutcome.transferred 30 100 100
    ∧ (transfer_credits usersSelf aliceId aliceId 30).2 = usersSelf := by
  constructor
  · norm_num [transfer_credits, usersSelf, aliceUser, aliceId, lookupKey, setKey]
    decide
  · norm_num [transfer_credits, usersSelf, aliceUser, aliceId, lookupKey, setKey]
    decide

/-- Amended C7: `transfer_credits` rejects a non-positive amount as an error
leaving every balance unchanged, and succeeds whenever the recipient id is
non-empty, the amount is positive, both users exist and the source balance
covers the amount — with no `fromId ≠ toId` requirement: a self-transfer
satisfying those conditions succeeds and leaves the ledger unchanged.
Conversely a successful transfer implies the validation held and the source
balance covered the amount. -/
theorem C7_transfer_validation_amended :
    (∀ (us : Users) (fromId toId : String) (amount : ℚ),
      amount ≤ 0 →
      transfer_credits us fromId toId amount = (.invalidRequest, us))
    ∧ (∀ (us : Users) (fromId toId : String) (amount : ℚ) (fu tu : User),
      ¬(toId = "" ∨ amount ≤ 0) →
      lookupKey us fromId = some fu → lookupKey us toId = some tu →
      ¬ fu.credit_balance < amount →
      (transfer_credits us fromId toId amount).1.isTransferred = true)
    ∧ (∀ (us : Users) (fromId : String) (amount : ℚ) (fu : User),
      nodupKeys us →
      ¬(fromId = "" ∨ amount ≤ 0) →
      lookupKey us fromId = some fu →
      ¬ fu.credit_balance < amount →
      (transfer_credits us fromId fromId amount).2 = us)
    ∧ (∀ (us : Users) (fromId toId : String) (amount : ℚ),
      (transfer_credits us fromId toId amount).1.isTransferred = true →
      ¬(toId = "" ∨ amount ≤ 0)
      ∧ ∃ fu tu, lookupKey us fromId = some fu ∧ lookupKey us toId = some tu
          ∧ ¬ fu.credit_balance < amount) := by
  refine ⟨?_, ?_, ?_, ?_⟩
  · intro us fromId toId amount hle
    rw [transfer_credits, if_pos (Or.inr hle)]
  · intro us fromId toId amount fu tu hval hfrom hto hbal
    simp only [transfer_credits, if_neg hval, hfrom, hto, if_neg hbal]
    rfl
  · intro us fromId amount fu hnd hval hfrom hbal
    have hst : (transfer_credits us fromId fromId amount).2 =
        setKey us fromId
          { fu with credit_balance := fu.credit_balance - amount + amount } := by
      simp only [transfer_credits, if_neg hval, hfrom]
      rw [lookupKey_setKey_self _ hfrom]
      simp only [if_neg hbal, Option.getD_some]
      rw [setKey_setKey_same]
    rw [hst]
    have hb : fu.credit_balance - amount + amount = fu.credit_balance := by ring
    rw [hb]
    exact setKey_lookup_self_eq hnd hfrom
  · intro us fromId toId amount hsucc
    by_cases hval : toId = "" ∨ amount ≤ 0
    · exfalso
      simp [transfer_credits, hval, TransferOutcome.isTransferred] at hsucc
    · refine ⟨hval, ?_⟩
      rcases hfrom : lookupKey us fromId with _ | fu
      · exfalso
        simp [transfer_credits, hval, hfrom, TransferOutcome.isTransferred] at hsucc
      · rcases hto : lookupKey us toId with _ | tu
        · exfalso
          simp [transfer_credits, hval, hfrom, hto, TransferOutcome.isTransferred] at hsucc
        · by_cases hbal : fu.credit_balance < amount
          · exfalso
            simp [transfer_credits, hval, hfrom, hto, hbal,
              TransferOutcome.isTransferred] at hsucc
          · exact ⟨fu, tu, rfl, rfl, hbal⟩

/-- Witness for the amended C7: `transfer(A,B,0)` is rejected with the
ledger untouched, and the self-transfer `transfer(alice,alice,30)` leaves
the one-account ledger unchanged. -/
theorem C7_transfer_validation_amended_witness :
    transfer_credits usersSample aliceId bobId 0 = (.invalidRequest, usersSample)
    ∧ (transfer_credits usersSelf aliceId aliceId 30).2 = usersSelf :=
  ⟨C7_transfer_validation_amended.1 usersSample aliceId bobId 0 (by norm_num),
   C7_transfer_validation_amended.2.2.1 usersSelf aliceId 30 aliceUser
     (by unfold nodupKeys; decide) (by decide) (by decide) (by decide)⟩

/-- Counterexample to claim C8: the HTTP balance endpoint does not answer 0
for an unknown account — it answers the 404 "User not found" error. -/
theorem C8_counterexample :
    get_credit_balance usersSample ghostId = BalanceOutcome.userNotFound
    ∧ get_credit_balance usersSample ghostId ≠ BalanceOutcome.balanceIs 0 := by
  constructor
  · decide
  · decide

/-- Amended C8: the tool-layer balance query `_tool_credit_balance` answers
0 (as a success) for an id known neither as agent nor as user, the agent's
`credits_earned - credits_spent` for a known agent, and the user's balance
for a known user; the HTTP endpoint `get_credit_balance` answers the user's
balance for a known user but a "User not found" error — not 0 — for an
unknown one. -/
theorem C8_balance_queries_amended :
    (∀ (agents : Agents) (us : Users) (agentId : String),
      lookupKey agents agentId = none → lookupKey us agentId = none →
      tool_credit_balance agents us agentId = 0)
    ∧ (∀ (agents : Agents) (us : Users) (agentId : String) (a : Agent),
      lookupKey agents agentId = some a →
      tool_credit_balance agents us agentId = a.credits_earned - a.credits_spent)
    ∧ (∀ (agents : Agents) (us : Users) (agentId : String) (u : User),
      lookupKey agents agentId = none → lookupKey us agentId = some u →
      tool_credit_balance agents us agentId = u.credit_balance)
    ∧ (∀ (us : Users) (userId : String),
      lookupKey us userId = none →
      get_credit_balance us userId = .userNotFound)
    ∧ (∀ (us : Users) (userId : String) (u : User),
      lookupKey us userId = some u →
      get_credit_balance us userId = .balanceIs u.credit_balance) := by
  refine ⟨?_, ?_, ?_, ?_, ?_⟩
  · intro agents us agentId ha hu
    simp only [tool_credit_balance, ha, hu]
  · intro agents us agentId a ha
    simp only [tool_credit_balance, ha]
  · intro agents us agentId u ha hu
    simp only [tool_credit_balance, ha, hu]
  · intro us userId hu
    simp only [get_credit_balance, hu]
  · intro us userId u hu
    simp only [get_credit_balance, hu]

/-- Witness for the amended C8: the ghost id is unknown to both tables, the
tool query answers 0, and the HTTP endpoint answers the error. -/
theorem C8_balance_queries_amended_witness :
    tool_credit_balance agentsSample usersSample ghostId = 0
    ∧ get_credit_balance usersSample ghostId = .userNotFound :=
  ⟨C8_balance_queries_amended.1 agentsSample usersSample ghostId
      (by decide) (by decide),
   C8_balance_queries_amended.2.2.2.1 usersSample ghostId (by decide)⟩

/-- Counterexample to claim C9: a heartbeat on an OFFLINE node refreshes
`last_seen` but does not set the status back to online — the node stays
OFFLINE. -/
theorem C9_counterexample :
    (lookupKey (node_heartbeat nodesOffline nodeNId 500).2 nodeNId).map Node.status =
      some NodeStatus.offline
    ∧ (lookupKey (node_heartbeat nodesOffline nodeNId 500).2 nodeNId).map Node.last_seen =
      some 500
    ∧ (node_heartbeat nodesOffline nodeNId 500).1 ≠ NodeHeartbeatOutcome.nodeNotFound := by
  refine ⟨?_, ?_, ?_⟩
  · decide
  · decide
  · decide

/-- Amended C9: a node heartbeat resets `last_seen` (and accrues
`CREDIT_EARNING_RATE * 0.1` credits) but never changes `status`; an agent
heartbeat resets `last_heartbeat` and changes `status` only when the
request payload explicitly carries one.  A record that is `offline` is
therefore not put back online by a bare heartbeat. -/
theorem C9_heartbeat_amended :
    (∀ (nodes : Nodes) (nodeId : String) (now : ℚ) (n : Node),
      lookupKey nodes nodeId = some n →
      lookupKey (node_heartbeat nodes nodeId now).2 nodeId =
        some { n with last_seen := now,
                      credits_earned :=
                        n.credits_earned + Config.creditEarningRate * (1 / 10) }
      ∧ (lookupKey (node_heartbeat nodes nodeId now).2 nodeId).map Node.status =
          some n.status)
    ∧ (∀ (agents : Agents) (agentId : String) (now : ℚ) (a : Agent),
      lookupKey agents agentId = some a →
      lookupKey (agent_heartbeat agents agentId now none none none).2 agentId =
        some { a with last_heartbeat := now })
    ∧ (∀ (agents : Agents) (agentId : String) (now : ℚ) (a : Agent) (s : AgentStatus),
      lookupKey agents agentId = some a →
      lookupKey (agent_heartbeat agents agentId now (some s) none none).2 agentId =
        some { a with last_heartbeat := now, status := s }) := by
  refine ⟨?_, ?_, ?_⟩
  · intro nodes nodeId now n hn
    have hlk : lookupKey (node_heartbeat nodes nodeId now).2 nodeId =
        some { n with last_seen := now,
                      credits_earned :=
                        n.credits_earned + Config.creditEarningRate * (1 / 10) } := by
      simp only [node_heartbeat, hn]
      exact lookupKey_setKey_self _ hn
    refine ⟨hlk, ?_⟩
    rw [hlk]
    rfl
  · intro agents agentId now a ha
    simp only [agent_heartbeat, ha, Option.getD_none]
    exact lookupKey_setKey_self _ ha
  · intro agents agentId now a s ha
    simp only [agent_heartbeat, ha, Option.getD_some, Option.getD_none]
    exact lookupKey_setKey_self _ ha

/-- Witness for the amended C9: the concrete offline node heartbeat at time
500 yields the same record with only `last_seen` and `credits_earned`
updated — in particular the status value is still the old one. -/
theorem C9_heartbeat_amended_witness :
    lookupKey (node_heartbeat nodesOffline nodeNId 500).2 nodeNId =
      some { nodeNOffline with last_seen := 500,
                               credits_earned :=
                                 nodeNOffline.credits_earned +
                                   Config.creditEarningRate * (1 / 10) }
    ∧ (lookupKey (node_heartbeat nodesOffline nodeNId 500).2 nodeNId).map Node.status =
        some nodeNOffline.status :=
  C9_heartbeat_amended.1 nodesOffline nodeNId 500 nodeNOffline (by decide)

/-- Claim C10: re-registering an already-known node id touches only that
node's `last_seen` (set to now) and `status` (set to ONLINE); its
credits_earned, accumulated contribution counters, resources, public key
and labels are unchanged even when the new registration carries different
values, and every other node's record is untouched. -/
theorem C10_reregistration_frame :
    ∀ (nodes : Nodes) (reg : NodeRegistration) (now : ℚ) (n : Node),
      lookupKey nodes reg.node_id = some n →
      lookupKey (register_node nodes reg now) reg.node_id =
        some { n with last_seen := now, status := .online }
      ∧ (∀ otherId, otherId ≠ reg.node_id →
          lookupKey (register_node nodes reg now) otherId = lookupKey nodes otherId) := by
  intro nodes reg now n hn
  constructor
  · simp only [register_node, hn]
    exact lookupKey_setKey_self _ hn
  · intro otherId hne
    simp only [register_node, hn]
    exact lookupKey_setKey_ne _ _ hne

/-- Witness for C10: re-registering the stored offline node with a request
carrying a different public key, architecture, resources and labels yields
a record equal to the stored one except for `last_seen` and `status`; in
particular `credits_earned`, usage hours, resources, public key and labels
keep their old values. -/
theorem C10_reregistration_frame_witness :
    lookupKey (register_node nodesOffline regSample 900) nodeNId =
      some { nodeNOffline with last_seen := 900, status := .online } :=
  (C10_reregistration_frame nodesOffline regSample 900 nodeNOffline (by decide)).1

/-- Counterexample to claim C4: on the first sweep at `now = 700` the stale
node (age 700 ≥ TTL 300) produces no broadcast event at all — the event
list holds only the agent's `agent_offline` — and a second consecutive
sweep at `now = 760`, with the agent's status already `offline` and no
intervening heartbeat, emits another `agent_offline` event for it instead
of none. -/
theorem C4_counterexample :
    (cleanup_sweep nodesOffline agentsSample 700).2.2 =
      [BroadcastEvent.agentOffline agentAId 700]
    ∧ (lookupKey (cleanup_sweep nodesOffline agentsSample 700).2.1 agentAId).map
        Agent.status = some AgentStatus.offline
    ∧ (cleanup_sweep (cleanup_sweep nodesOffline agentsSample 700).1
        (cleanup_sweep nodesOffline agentsSample 700).2.1 760).2.2 =
      [BroadcastEvent.agentOffline agentAId 760] := by
  refine ⟨?_, ?_, ?_⟩
  · norm_num [cleanup_sweep, nodesOffline, agentsSample, nodeNOffline, agentAIdle,
      nodeStale, agentStale, Config.nodeRegistrationTTL, Config.agentStaleSeconds,
      List.filter]
  · norm_num [cleanup_sweep, nodesOffline, agentsSample, nodeNOffline, agentAIdle,
      nodeStale, agentStale, Config.nodeRegistrationTTL, Config.agentStaleSeconds,
      List.filter, lookupKey]
  · norm_num [cleanup_sweep, nodesOffline, agentsSample, nodeNOffline, agentAIdle,
      nodeStale, agentStale, Config.nodeRegistrationTTL, Config.agentStaleSeconds,
      List.filter]

/-- Amended C4: each sweep of `_cleanup_task` sets every stale record's
status to offline whether or not it was already offline; every stale agent
produces one `agent_offline` event on every sweep (so a still-stale agent
is re-announced on each subsequent sweep), while stale nodes produce no
broadcast event; non-stale records are untouched. -/
theorem C4_sweep_amended :
    ∀ (nodes : Nodes) (agents : Agents) (now : ℚ),
      ((cleanup_sweep nodes agents now).2.2.length =
        (agents.filter (fun p => agentStale now p.2)).length)
      ∧ (∀ p ∈ agents, agentStale now p.2 = true →
          BroadcastEvent.agentOffline p.1 now ∈ (cleanup_sweep nodes agents now).2.2
          ∧ (p.1, { p.2 with status := AgentStatus.offline }) ∈
              (cleanup_sweep nodes agents now).2.1)
      ∧ (∀ p ∈ agents, agentStale now p.2 = false →
          p ∈ (cleanup_sweep nodes agents now).2.1)
      ∧ (∀ p ∈ nodes, nodeStale now p.2 = true →
          (p.1, { p.2 with status := NodeStatus.offline }) ∈
            (cleanup_sweep nodes agents now).1)
      ∧ (∀ p ∈ nodes, nodeStale now p.2 = false →
          p ∈ (cleanup_sweep nodes agents now).1)
      ∧ (∀ e ∈ (cleanup_sweep nodes agents now).2.2,
          ∃ p ∈ agents, agentStale now p.2 = true
            ∧ e = BroadcastEvent.agentOffline p.1 now) := by
  intro nodes agents now
  refine ⟨?_, ?_, ?_, ?_, ?_, ?_⟩
  · simp only [cleanup_sweep, List.length_map]
  · intro p hp hstale
    constructor
    · simp only [cleanup_sweep]
      exact List.mem_map.mpr ⟨p, List.mem_filter.mpr ⟨hp, hstale⟩, rfl⟩
    · simp only [cleanup_sweep]
      exact List.mem_map.mpr ⟨p, hp, by rw [if_pos hstale]⟩
  · intro p hp hstale
    simp only [cleanup_sweep]
    exact List.mem_map.mpr ⟨p, hp, by rw [if_neg (by simp [hstale])]⟩
  · intro p hp hstale
    simp only [cleanup_sweep]
    exact List.mem_map.mpr ⟨p, hp, by rw [if_pos hstale]⟩
  · intro p hp hstale
    simp only [cleanup_sweep]
    exact List.mem_map.mpr ⟨p, hp, by rw [if_neg (by simp [hstale])]⟩
  · intro e he
    simp only [cleanup_sweep] at he
    rcases List.mem_map.mp he with ⟨p, hpf, hpe⟩
    rcases List.mem_filter.mp hpf with ⟨hp, hstale⟩
    exact ⟨p, hp, hstale, hpe.symm⟩

/-- Witness for the amended C4: the concrete stale idle agent at `now = 700`
gets its one `agent_offline` event and its record set offline. -/
theorem C4_sweep_amended_witness :
    BroadcastEvent.agentOffline agentAId 700 ∈
      (cleanup_sweep nodesOffline agentsSample 700).2.2
    ∧ (agentAId, { agentAIdle with status := AgentStatus.offline }) ∈
        (cleanup_sweep nodesOffline agentsSample 700).2.1 :=
  (C4_sweep_amended nodesOffline agentsSample 700).2.1 (agentAId, agentAIdle)
    (by decide) (by norm_num [agentStale, agentAIdle, Config.agentStaleSeconds])

-- ============ Disconnect purging lemmas for the broadcaster ============

theorem disconnect_removedEverywhere (m : WebSocketManager) (clientId : String) :
    (m.disconnect clientId).removedEverywhere clientId := by
  refine ⟨?_, ?_, ?_⟩
  · intro hmem
    rcases List.mem_filter.mp hmem with ⟨_, hdec⟩
    simp at hdec
  · intro p hp
    rcases List.mem_filter.mp hp with ⟨_, hdec⟩
    simpa using hdec
  · intro p hp hmem
    rcases List.mem_map.mp hp with ⟨q, _, hpq⟩
    rw [← hpq] at hmem
    rcases List.mem_filter.mp hmem with ⟨_, hdec⟩
    simp at hdec

theorem disconnect_preserves_removed {m : WebSocketManager} {clientId : String}
    (x : String) (h : m.removedEverywhere clientId) :
    (m.disconnect x).removedEverywhere clientId := by
  obtain ⟨h1, h2, h3⟩ := h
  refine ⟨?_, ?_, ?_⟩
  · intro hmem
    exact h1 (List.mem_filter.mp hmem).1
  · intro p hp
    exact h2 p (List.mem_filter.mp hp).1
  · intro p hp hmem
    rcases List.mem_map.mp hp with ⟨q, hq, hpq⟩
    rw [← hpq] at hmem
    exact h3 q hq (List.mem_filter.mp hmem).1

theorem foldl_disconnect_preserves {L : List String} {m : WebSocketManager}
    {clientId : String} (h : m.removedEverywhere clientId) :
    (L.foldl (fun s c => s.disconnect c) m).removedEverywhere clientId := by
  induction L generalizing m with
  | nil => exact h
  | cons x rest ih => exact ih (disconnect_preserves_removed x h)

theorem foldl_disconnect_removes {L : List String} {m : WebSocketManager}
    {clientId : String} (h : clientId ∈ L) :
    (L.foldl (fun s c => s.disconnect c) m).removedEverywhere clientId := by
  induction L generalizing m with
  | nil => simp at h
  | cons x rest ih =>
    rcases List.mem_cons.mp h with hx | hx
    · subst hx
      rw [List.foldl_cons]
      exact foldl_disconnect_preserves (disconnect_removedEverywhere m clientId)
    · rw [List.foldl_cons]
      exact ih hx

/-- Claim C5: for every `broadcast(channel, message)` call, a send failure on
one subscribed connection does not prevent delivery to any other subscribed
connection (every subscribed, connected client whose send does not fail is
delivered to), the failed connection is fully disconnected from the registry
(dropped from the connection map, its subscription entry, and every agent's
routed set), and the call returns normally — the result carries no error
case, so the caller never sees a failure. -/
theorem C5_broadcast_fault_isolation :
    ∀ (m : WebSocketManager) (channel : String) (sendFails : String → Bool)
      (clientId : String) (chans : List String),
      (clientId, chans) ∈ m.subscriptions → channel ∈ chans →
      clientId ∈ m.connections →
      (sendFails clientId = false →
        clientId ∈ (m.broadcast channel sendFails).2)
      ∧ (sendFails clientId = true →
        ((m.broadcast channel sendFails).1).removedEverywhere clientId) := by
  intro m channel sendFails clientId chans hsub hchan hconn
  have hrec : clientId ∈ WebSocketManager.recipientsOf m channel := by
    rw [WebSocketManager.recipientsOf]
    exact List.mem_map.mpr ⟨(clientId, chans),
      List.mem_filter.mpr ⟨hsub, by simp [hchan, hconn]⟩, rfl⟩
  constructor
  · intro hok
    exact List.mem_filter.mpr ⟨hrec, by simp [hok]⟩
  · intro hfail
    exact foldl_disconnect_removes (List.mem_filter.mpr ⟨hrec, hfail⟩)

/-- Witness for C5: with both clients subscribed to the jobs channel and the
send to `c2Id` failing, `c1Id` still receives the broadcast, and `c2Id` ends
up with no connection entry, no subscriptions, and no agent routes. -/
theorem C5_broadcast_fault_isolation_witness :
    c1Id ∈ (wsSample.broadcast jobsChannel (fun c => decide (c = c2Id))).2
    ∧ ((wsSample.broadcast jobsChannel
        (fun c => decide (c = c2Id))).1).removedEverywhere c2Id := by
  constructor
  · exact (C5_broadcast_fault_isolation wsSample jobsChannel
      (fun c => decide (c = c2Id)) c1Id [jobsChannel]
      (by decide) (by decide) (by decide)).1 (by decide)
  · exact (C5_broadcast_fault_isolation wsSample jobsChannel
      (fun c => decide (c = c2Id)) c2Id [jobsChannel]
      (by decide) (by decide) (by decide)).2 (by decide)

/-- Counterexample to claim C6: after `c1` connects, is routed to the agent,
and disconnects, the agent has zero routed connections (its routed set is
empty) yet `send_to_agent` still returns `True`, because the defaultdict
key survives `disconnect` and the method only tests key membership. -/
theorem C6_counterexample :
    lookupKey wsGone.agent_connections agentAId = some []
    ∧ (wsGone.send_to_agent agentAId (fun _ => false)).1 = true := by
  constructor
  · decide
  · decide

/-- Amended C6: `send_to_agent(agentId, message)` returns `True` exactly when
`agentId` is a key of the `agent_connections` map — that is, when some route
was ever registered for it — independently of whether any routed connection
still exists; it returns `False` only for an agent id never registered. -/
theorem C6_send_to_agent_amended :
    ∀ (m : WebSocketManager) (agentId : String) (sendFails : String → Bool),
      (m.send_to_agent agentId sendFails).1 = true ↔
        agentId ∈ keysOf m.agent_connections := by
  intro m agentId sendFails
  rcases hlk : lookupKey m.agent_connections agentId with _ | clients
  · have hnot := (lookupKey_eq_none_iff m.agent_connections agentId).mp hlk
    simp only [WebSocketManager.send_to_agent, hlk]
    simp [hnot]
  · have hmem : agentId ∈ keysOf m.agent_connections := by
      by_contra hc
      rw [(lookupKey_eq_none_iff m.agent_connections agentId).mpr hc] at hlk
      cases hlk
    simp only [WebSocketManager.send_to_agent, hlk]
    simp [hmem]
